import Mathlib

/-!
Verification of the ANARI multi-threading test program (`src/main.cpp`).

The development shallowly embeds the program's own logic: the status callback,
the extension scan, the frame configuration and PNG-writing render helper, the
render-thread loop, the three polling-thread loops, the handle acquire/release
discipline of `main` and `initializeWorld`, and the randomized world-data
generation.  Behavior implemented inside the external ANARI library and the
image writer (ray tracing, property computation, image encoding) is out of
scope and is represented abstractly where the program merely forwards values.
-/

namespace AnariMT

/-! ### Status callback (src/main.cpp, lines 27-46) -/

/-- The ANARI status severities the callback distinguishes. -/
inductive Severity where
  | fatalError
  | error
  | warning
  | performanceWarning
  | info
  | debug
deriving DecidableEq

/-- Observable effect of one status-callback invocation: an optional line written
to standard error, and an optional process exit code. -/
structure StatusAction where
  logStderr : Option String
  exitCode : Option Nat
deriving DecidableEq

/-- Shallow embedding of `statusFunc` (lines 27-46): fatal errors are logged and
the process exits with status 1 (`std::exit(1)`); errors, warnings and
performance warnings are logged and execution continues; all other severities
(INFO/DEBUG) are ignored.  The `[%p]` source-handle pointer in the format
strings is elided; the severity tag and the message are kept. -/
def statusFunc (severity : Severity) (message : String) : StatusAction :=
  if severity = Severity.fatalError then
    { logStderr := some ("[FATAL] " ++ message), exitCode := some 1 }
  else if severity = Severity.error then
    { logStderr := some ("[ERROR] " ++ message), exitCode := none }
  else if severity = Severity.warning then
    { logStderr := some ("[WARN ] " ++ message), exitCode := none }
  else if severity = Severity.performanceWarning then
    { logStderr := some ("[PERF ] " ++ message), exitCode := none }
  else
    { logStderr := none, exitCode := none }

/-! ### Extension query (src/main.cpp, lines 51-63) -/

/-- Shallow embedding of `deviceHasExtension` (lines 51-63).  The null-terminated
`const char **` array returned by `anariGetDeviceExtensions` is modelled as a
`List String`; the pointer loop scans linearly, returning `true` at the first
entry whose contents equal `extName` (the C++ comparison `*extensions == extName`
is `std::string` content equality) and `false` once the terminator is reached. -/
def deviceHasExtension (extensions : List String) (extName : String) : Bool :=
  match extensions with
  | [] => false
  | e :: rest => if e = extName then true else deviceHasExtension rest extName

/-! ### Frame configuration and render helper (src/main.cpp, lines 197-239) -/

/-- Color-channel formats relevant to the program; the frame is configured with
`ANARI_UFIXED8_RGBA_SRGB` (4 bytes per pixel). -/
inductive ColorFormat where
  | ufixed8RGBASRGB
  | other
deriving DecidableEq

/-- The frame parameters set by `initializeFrame` that the render helper reads. -/
structure FrameState where
  size : Nat × Nat
  channelColor : ColorFormat
deriving DecidableEq

/-- Shallow embedding of `initializeFrame` (lines 197-211): the frame size is set
to 1024 by 1024 and the color channel to `ANARI_UFIXED8_RGBA_SRGB`.  Attaching
the world/renderer/camera handles and the commit call are opaque handle plumbing
with no bearing on the framebuffer format. -/
def initializeFrame : FrameState :=
  { size := (1024, 1024), channelColor := ColorFormat.ufixed8RGBASRGB }

/-- One `stbi_write_png` call as issued by `render`: file name, pixel dimensions,
components per pixel, row stride in bytes, and whether vertical flipping was
enabled (`stbi_flip_vertically_on_write(1)`). -/
structure PngWrite where
  fileName : String
  width : Nat
  height : Nat
  comp : Nat
  strideBytes : Nat
  flippedVertically : Bool
deriving DecidableEq

/-- Dimensions of the framebuffer returned by
`anari::map(device, frame, "channel.color")` (line 232).  The external library
reports the frame's committed `size` parameter here (spec section 6: the output
images are 1024x1024); the program only forwards these values to the writer. -/
def mapChannelColor (frame : FrameState) : Nat × Nat :=
  frame.size

/-- Shallow embedding of `render` (lines 217-239): render, wait, read the
`duration` property (the value is produced by the external library and is not
modelled), then, when `fileName` is nonempty, enable vertical flipping and call
`stbi_write_png(fileName, fb.width, fb.height, 4, fb.data, 4 * fb.width)`.
Returns the PNG write performed, if any. -/
def render (frame : FrameState) (fileName : String) : Option PngWrite :=
  if fileName = "" then none
  else
    some { fileName := fileName
           width := (mapChannelColor frame).1
           height := (mapChannelColor frame).2
           comp := 4
           strideBytes := 4 * (mapChannelColor frame).1
           flippedVertically := true }

/-! ### Render thread (src/main.cpp, lines 323-336) -/

/-- The three stop flags the render thread sets when its loop completes. -/
inductive StopFlag where
  | queryExtensionFlag
  | queryBoundsNoWaitFlag
  | queryBoundsWaitFlag
deriving DecidableEq

/-- Events of the render thread: one render cycle (with its optional PNG write),
or the setting of one stop flag. -/
inductive RenderEvent where
  | cycle (write : Option PngWrite)
  | setFlag (flag : StopFlag)
deriving DecidableEq

/-- File name built by the render loop, `str << "out_" << i << ".png"`
(lines 325-326). -/
def outFileName (i : Nat) : String :=
  "out_" ++ toString i ++ ".png"

/-- Shallow embedding of the render thread body (lines 323-336): ten iterations
`i = 0 .. 9`, each calling `render` on `out_i.png`, followed by setting the
three stop flags, in the order they appear in the source. -/
def renderThreadEvents : List RenderEvent :=
  ((List.range 10).map fun i => RenderEvent.cycle (render initializeFrame (outFileName i)))
    ++ [RenderEvent.setFlag StopFlag.queryExtensionFlag,
        RenderEvent.setFlag StopFlag.queryBoundsNoWaitFlag,
        RenderEvent.setFlag StopFlag.queryBoundsWaitFlag]

/-- Whether a render-thread event is a render cycle. -/
def isCycle : RenderEvent → Bool
  | RenderEvent.cycle _ => true
  | RenderEvent.setFlag _ => false

/-- File names of the PNG writes performed by a render-thread event list. -/
def cycleFileNames (events : List RenderEvent) : List String :=
  events.filterMap fun e =>
    match e with
    | RenderEvent.cycle (some w) => some w.fileName
    | _ => none

/-- The PNG write `render` performs for the first output file; used to
instantiate the format theorem. -/
def outPng0 : PngWrite :=
  { fileName := "out_0.png", width := 1024, height := 1024, comp := 4
    strideBytes := 4 * 1024, flippedVertically := true }

/-! ### Polling threads (src/main.cpp, lines 281-320) -/

/-- Shallow embedding of the three polling thread bodies (extension query, lines
282-294; non-blocking bounds query, lines 299-308; blocking bounds query, lines
311-320), which share one control structure: an infinite `for (;;)` loop whose
iteration performs one query and then reads the stop flag, breaking when it is
set.  The query result never influences the control flow (for the extension
thread it only selects a log line), so the query is left abstract.  `flagAt k`
is the flag value read at the end of iteration `k`; `fuel` bounds the modelled
iterations.  The result is the total number of iterations (equivalently,
queries) performed when the loop exits within `fuel` iterations. -/
def pollLoop (flagAt : Nat → Bool) : Nat → Nat → Option Nat
  | 0, _ => none
  | fuel + 1, k => if flagAt k then some (k + 1) else pollLoop flagAt fuel (k + 1)

/-! ### Handle lifecycle (src/main.cpp, lines 68-170 and 241-359) -/

/-- Every object handle the program obtains.  The library handle is included:
`loadLibrary` acquires it and `unloadLibrary` releases it. -/
inductive Handle where
  | library
  | device
  | world
  | renderer
  | camera
  | frame
  | indicesArray
  | positionsArray
  | distanceArray
  | geometry
  | texelArray
  | texture
  | material
  | surface
  | surfaceArray
  | light
deriving DecidableEq

/-- The eight threads `main` spawns and joins. -/
inductive ThreadName where
  | renderThread
  | queryBoundsWaitThread
  | queryBoundsNoWaitThread
  | queryExtensionThread
  | initWorldThread
  | initRendererThread
  | initCameraThread
  | initFrameThread
deriving DecidableEq

/-- Handle-lifecycle events: acquiring a handle (`loadLibrary`, `newDevice`,
`newObject`, `newArray1D`), releasing it (`anari::release`, the release half of
`setAndReleaseParameter`, `unloadLibrary`), joining a thread, and the final
`return 0` of `main` (process exit). -/
inductive HEvent where
  | acquire (h : Handle)
  | release (h : Handle)
  | join (t : ThreadName)
  | exitProc (code : Nat)
deriving DecidableEq

/-- Handle events of `initializeWorld` (lines 68-170), in program order:
three data arrays are created (lines 79-82), the sphere geometry is created
(line 106) and the arrays are handed over via `setAndReleaseParameter`
(lines 107-112); the texel array (line 118) feeds the sampler (lines 130-131),
which feeds the material (lines 137-138); the surface (line 143) consumes
geometry and material (lines 144-145); the surface array (line 152) is handed
to the world (line 156); the surface is released (line 162); the light is
created (line 167), copied into the world by `setParameterArray1D` (line 168),
and released (line 169). -/
def initializeWorldEvents : List HEvent :=
  [HEvent.acquire Handle.indicesArray,
   HEvent.acquire Handle.positionsArray,
   HEvent.acquire Handle.distanceArray,
   HEvent.acquire Handle.geometry,
   HEvent.release Handle.indicesArray,
   HEvent.release Handle.positionsArray,
   HEvent.release Handle.distanceArray,
   HEvent.acquire Handle.texelArray,
   HEvent.acquire Handle.texture,
   HEvent.release Handle.texelArray,
   HEvent.acquire Handle.material,
   HEvent.release Handle.texture,
   HEvent.acquire Handle.surface,
   HEvent.release Handle.geometry,
   HEvent.release Handle.material,
   HEvent.acquire Handle.surfaceArray,
   HEvent.release Handle.surfaceArray,
   HEvent.release Handle.surface,
   HEvent.acquire Handle.light,
   HEvent.release Handle.light]

/-- Handle events of `main` before the world-initializer thread is spawned
(lines 245-250): library load, device creation, world creation. -/
def mainPreEvents : List HEvent :=
  [HEvent.acquire Handle.library,
   HEvent.acquire Handle.device,
   HEvent.acquire Handle.world]

/-- Handle events of `main` issued after the world-initializer thread was
spawned and before the joins (lines 257, 265, 273): renderer, camera and frame
creation.  These run concurrently with `initializeWorld`; the other spawned
threads perform no handle events. -/
def mainConcurrentEvents : List HEvent :=
  [HEvent.acquire Handle.renderer,
   HEvent.acquire Handle.camera,
   HEvent.acquire Handle.frame]

/-- Handle events of `main` from the joins to the end (lines 340-359): the
eight joins in source order, the five releases, the library unload, and
`return 0`. -/
def mainPostEvents : List HEvent :=
  [HEvent.join ThreadName.renderThread,
   HEvent.join ThreadName.queryBoundsWaitThread,
   HEvent.join ThreadName.queryBoundsNoWaitThread,
   HEvent.join ThreadName.queryExtensionThread,
   HEvent.join ThreadName.initWorldThread,
   HEvent.join ThreadName.initRendererThread,
   HEvent.join ThreadName.initCameraThread,
   HEvent.join ThreadName.initFrameThread,
   HEvent.release Handle.camera,
   HEvent.release Handle.renderer,
   HEvent.release Handle.world,
   HEvent.release Handle.frame,
   HEvent.release Handle.device,
   HEvent.release Handle.library,
   HEvent.exitProc 0]

/-- `Merge xs ys zs` holds when `zs` is an interleaving of `xs` and `ys` that
preserves the internal order of each: the possible joint instruction orders of
two concurrently running threads. -/
inductive Merge {α : Type} : List α → List α → List α → Prop where
  | nil : Merge [] [] []
  | left {x : α} {xs ys zs : List α} : Merge xs ys zs → Merge (x :: xs) ys (x :: zs)
  | right {y : α} {xs ys zs : List α} : Merge xs ys zs → Merge xs (y :: ys) (y :: zs)

/-- Whole-program handle-event trace of a run whose concurrent section resolved
to the interleaving `zs` and in which no fatal status callback fired. -/
def programTrace (zs : List HEvent) : List HEvent :=
  mainPreEvents ++ zs ++ mainPostEvents

/-! ### World data generation (src/main.cpp, lines 68-101) -/

/-- Number of spheres, `numSpheres = 10000` (line 70). -/
def numSpheres : Nat := 10000

/-- Abstract interface to the external-library pieces `initializeWorld` uses
for its randomized data: `σ` is the `std::mt19937` generator state, `mtSeed`
its seeding, `vert_dist` one draw of `std::normal_distribution<float>(0, 0.25)`
(an implementation-defined floating-point algorithm, so sample values of type
`α` stay abstract), `sqrt3 a b c` the distance `std::sqrt(a*a + b*b + c*c)`,
`translate` the `positions[i] += pos` translation, and `shufflePick` the
sequence of index draws `std::shuffle` makes from the generator. -/
structure WorldGen (σ α : Type) where
  mtSeed : Nat → σ
  vert_dist : σ → α × σ
  sqrt3 : α → α → α → α
  translate : α × α × α → α × α × α → α × α × α
  shufflePick : σ → Nat → Nat

/-- One iteration of the fill loop (lines 86-93): three consecutive normal
draws `a`, `b`, `c` give the sphere position, translated by `pos`, and the
distance value `sqrt(a*a + b*b + c*c)`. -/
def fillSphere {σ α : Type} (g : WorldGen σ α) (pos : α × α × α) (rng : σ) :
    ((α × α × α) × α) × σ :=
  let ra := g.vert_dist rng
  let rb := g.vert_dist ra.2
  let rc := g.vert_dist rb.2
  ((g.translate (ra.1, rb.1, rc.1) pos, g.sqrt3 ra.1 rb.1 rc.1), rc.2)

/-- The fill loop over all spheres (lines 86-93), threading the generator. -/
def fillSpheres {σ α : Type} (g : WorldGen σ α) (pos : α × α × α) :
    Nat → σ → List ((α × α × α) × α) × σ
  | 0, rng => ([], rng)
  | n + 1, rng =>
    let head := fillSphere g pos rng
    let tail := fillSpheres g pos n head.2
    (head.1 :: tail.1, tail.2)

/-- The element a draw selects from a nonempty remaining pool: the draw value
modulo the pool size indexes the pool. -/
def drawAt (pick : Nat → Nat) (step : Nat) (a : Nat) (rest : List Nat) : Nat :=
  (a :: rest).get ⟨pick step % (a :: rest).length, Nat.mod_lt _ (Nat.succ_pos rest.length)⟩

/-- Fuelled core of the shuffle model: at each step the draw selects the next
output element, which is removed from the remaining pool. -/
def shuffleSteps (pick : Nat → Nat) : Nat → Nat → List Nat → List Nat
  | 0, _, _ => []
  | _ + 1, _, [] => []
  | fuel + 1, step, a :: rest =>
    drawAt pick step a rest
      :: shuffleSteps pick fuel (step + 1) ((a :: rest).erase (drawAt pick step a rest))

/-- Model of `std::shuffle(indicesBegin, indicesEnd, rng)` (line 100).  The
mapping from generator draws to the chosen rearrangement is
implementation-defined in the C++ standard library, so the shuffle is modelled
as a draw-indexed selection: the draws determine which rearrangement of the
input is produced, which is exactly the guarantee `std::shuffle` gives. -/
def shuffleModel (pick : Nat → Nat) (l : List Nat) : List Nat :=
  shuffleSteps pick l.length 0 l

/-- The three arrays `initializeWorld` fills (lines 79-101): sphere positions,
distance attributes, and the `primitive.index` array. -/
structure WorldArrays (α : Type) where
  positions : List (α × α × α)
  distances : List α
  indices : List Nat

/-- Shallow embedding of the data generation in `initializeWorld` (lines
68-101).  The generator is seeded with the literal constant 0 (line 74,
`rng.seed(0)`); the positions and distances come from the fill loop; the index
array is `std::iota` from 0 (modelled by `List.range`) followed by the shuffle.
`env` stands for the ambient per-run state (scheduling, environment, true
randomness) a run could in principle consume; the body never reads it. -/
def initializeWorldArrays {σ α : Type} (g : WorldGen σ α) (pos : α × α × α)
    (env : Nat) : WorldArrays α :=
  let rng0 := g.mtSeed 0
  let filled := fillSpheres g pos numSpheres rng0
  { positions := filled.1.map Prod.fst
    distances := filled.1.map Prod.snd
    indices := shuffleModel (g.shufflePick filled.2) (List.range numSpheres) }

/-! ### Helper lemmas -/

/-- Counting an element in an interleaving adds the counts in the two threads. -/
theorem Merge.count_eq {α : Type} [DecidableEq α] {xs ys zs : List α}
    (h : Merge xs ys zs) (a : α) : zs.count a = xs.count a + ys.count a := by
  induction h with
  | nil => rfl
  | left _ ih =>
    simp only [List.count_cons, ih]
    omega
  | right _ ih =>
    simp only [List.count_cons, ih]
    omega

/-- Concatenation is one particular interleaving. -/
theorem merge_append {α : Type} : ∀ xs ys : List α, Merge xs ys (xs ++ ys)
  | [], [] => Merge.nil
  | [], y :: ys => Merge.right (merge_append [] ys)
  | x :: xs, ys => Merge.left (merge_append xs ys)

/-- The drawn element belongs to the pool it was drawn from. -/
theorem drawAt_mem (pick : Nat → Nat) (step a : Nat) (rest : List Nat) :
    drawAt pick step a rest ∈ a :: rest :=
  List.get_mem _ _ _

/-- With enough fuel, the shuffle core permutes its input. -/
theorem shuffleSteps_perm (pick : Nat → Nat) :
    ∀ (fuel step : Nat) (l : List Nat), l.length ≤ fuel →
      (shuffleSteps pick fuel step l).Perm l := by
  intro fuel
  induction fuel with
  | zero =>
    intro step l hl
    have : l = [] := List.eq_nil_of_length_eq_zero (Nat.le_zero.mp hl)
    simp [this, shuffleSteps]
  | succ fuel ih =>
    intro step l hl
    match l with
    | [] => simp [shuffleSteps]
    | a :: rest =>
      have hx : drawAt pick step a rest ∈ a :: rest := drawAt_mem pick step a rest
      have hlen : ((a :: rest).erase (drawAt pick step a rest)).length ≤ fuel := by
        rw [List.length_erase_of_mem hx]
        simp only [List.length_cons] at hl ⊢
        omega
      exact ((ih (step + 1) _ hlen).cons (drawAt pick step a rest)).trans
        (List.perm_cons_erase hx).symm

/-- The shuffle model permutes its input, whatever the draws are. -/
theorem shuffleModel_perm (pick : Nat → Nat) (l : List Nat) :
    (shuffleModel pick l).Perm l :=
  shuffleSteps_perm pick l.length 0 l (Nat.le_refl _)

/-! ### Claim theorems -/

set_option maxRecDepth 4000 in
/-- C1: the render thread performs exactly 10 render cycles, writing files
`out_0.png` through `out_9.png` in that order, and the three stop-flag events
come only after the 10th cycle, in source order. -/
theorem renderThread_ten_cycles_then_flags :
    cycleFileNames renderThreadEvents =
        ["out_0.png", "out_1.png", "out_2.png", "out_3.png", "out_4.png",
         "out_5.png", "out_6.png", "out_7.png", "out_8.png", "out_9.png"]
      ∧ (renderThreadEvents.filter isCycle).length = 10
      ∧ (renderThreadEvents.take 10).all isCycle = true
      ∧ renderThreadEvents.drop 10 =
          [RenderEvent.setFlag StopFlag.queryExtensionFlag,
           RenderEvent.setFlag StopFlag.queryBoundsNoWaitFlag,
           RenderEvent.setFlag StopFlag.queryBoundsWaitFlag] :=
  ⟨rfl, rfl, rfl, rfl⟩

/-- C2: the status callback ignores informational and debug messages; logs
warnings, performance warnings and errors to standard error without exiting;
and on a fatal error logs to standard error and exits with the non-zero
status 1. -/
theorem statusFunc_taxonomy (message : String) :
    statusFunc Severity.info message = { logStderr := none, exitCode := none }
      ∧ statusFunc Severity.debug message = { logStderr := none, exitCode := none }
      ∧ ((statusFunc Severity.warning message).logStderr.isSome = true
          ∧ (statusFunc Severity.warning message).exitCode = none)
      ∧ ((statusFunc Severity.performanceWarning message).logStderr.isSome = true
          ∧ (statusFunc Severity.performanceWarning message).exitCode = none)
      ∧ ((statusFunc Severity.error message).logStderr.isSome = true
          ∧ (statusFunc Severity.error message).exitCode = none)
      ∧ ((statusFunc Severity.fatalError message).logStderr.isSome = true
          ∧ (statusFunc Severity.fatalError message).exitCode = some 1
          ∧ (1 : Nat) ≠ 0) :=
  ⟨rfl, rfl, ⟨rfl, rfl⟩, ⟨rfl, rfl⟩, ⟨rfl, rfl⟩, ⟨rfl, rfl, Nat.one_ne_zero⟩⟩

/-- C3: once the stop flag is set (true from iteration `t` on), each polling
loop exits after at most one further iteration: from any iteration at or past
`t` it returns within that very iteration (one further query), and a loop
observed at iteration `k ≤ t` performs at most `t + 1` iterations in total. -/
theorem pollLoop_stops_within_one (flagAt : Nat → Bool) (t : Nat)
    (hset : ∀ n, t ≤ n → flagAt n = true) :
    (∀ k, t ≤ k → ∀ fuel, 1 ≤ fuel → pollLoop flagAt fuel k = some (k + 1))
      ∧ (∀ fuel k, k ≤ t → t < k + fuel →
          ∃ m, pollLoop flagAt fuel k = some m ∧ m ≤ t + 1) := by
  constructor
  · intro k hk fuel hfuel
    match fuel, hfuel with
    | fuel + 1, _ => simp [pollLoop, hset k hk]
  · intro fuel
    induction fuel with
    | zero => intro k hk hlt; omega
    | succ fuel ih =>
      intro k hk hlt
      by_cases hf : flagAt k = true
      · exact ⟨k + 1, by simp [pollLoop, hf], by omega⟩
      · have hkt : k < t := by
          rcases Nat.lt_or_ge k t with hlt2 | hge
          · exact hlt2
          · exact absurd (hset k hge) hf
        obtain ⟨m, hm, hmle⟩ := ih (k + 1) (by omega) (by omega)
        exact ⟨m, by simp [pollLoop, hf, hm], hmle⟩

/-- Witness for C3: with a flag that is set from iteration 2 on, a loop that has
reached iteration 2 exits within that very iteration, after 3 iterations in
total. -/
theorem pollLoop_stops_within_one_witness :
    pollLoop (fun n => decide (2 ≤ n)) 5 2 = some 3 :=
  (pollLoop_stops_within_one (fun n => decide (2 ≤ n)) 2
      (fun n hn => decide_eq_true hn)).1 2 (Nat.le_refl 2) 5 (by decide)

/-- C4: for every interleaving of the concurrent section (hence for every
completion order of the initializer threads), the whole-program trace acquires
every handle exactly once and releases it exactly once; in particular the
library handle is released (unloaded) exactly once. -/
theorem handles_released_exactly_once (zs : List HEvent)
    (hzs : Merge mainConcurrentEvents initializeWorldEvents zs) :
    ∀ h : Handle, (programTrace zs).count (HEvent.acquire h) = 1
      ∧ (programTrace zs).count (HEvent.release h) = 1 := by
  intro h
  have ha := hzs.count_eq (HEvent.acquire h)
  have hr := hzs.count_eq (HEvent.release h)
  constructor
  · rw [programTrace, List.count_append, List.count_append, ha]
    cases h <;> decide
  · rw [programTrace, List.count_append, List.count_append, hr]
    cases h <;> decide

/-- Witness for C4 at the sequential interleaving: the library handle is
released (the library is unloaded) exactly once. -/
theorem handles_released_exactly_once_witness :
    (programTrace (mainConcurrentEvents ++ initializeWorldEvents)).count
        (HEvent.release Handle.library) = 1 :=
  (handles_released_exactly_once (mainConcurrentEvents ++ initializeWorldEvents)
      (merge_append _ _) Handle.library).2

/-- C5: `deviceHasExtension` scans the extension list linearly and returns
`true` exactly when some entry equals the requested name; so it returns `true`
for a name present in the array and `false` for any name not present,
fabricated ones included. -/
theorem deviceHasExtension_iff_mem (extensions : List String) (extName : String) :
    deviceHasExtension extensions extName = true ↔ extName ∈ extensions := by
  induction extensions with
  | nil => simp [deviceHasExtension]
  | cons e rest ih =>
    simp only [deviceHasExtension, List.mem_cons]
    by_cases h : e = extName
    · simp [h]
    · have hne : ¬extName = e := fun hx => h hx.symm
      simp [h, hne, ih]

/-- C7: in a run with no fatal callback, the program joins all eight threads,
releases every handle exactly once (the library included), and the trace ends
with process exit status 0; a fatal callback invocation logs to standard error
and exits with the non-zero status 1. -/
theorem run_completes_or_fatal_exits (zs : List HEvent)
    (hzs : Merge mainConcurrentEvents initializeWorldEvents zs) :
    (∀ t : ThreadName, (programTrace zs).count (HEvent.join t) = 1)
      ∧ (∀ h : Handle, (programTrace zs).count (HEvent.release h) = 1)
      ∧ (programTrace zs).getLast? = some (HEvent.exitProc 0)
      ∧ (∀ message, (statusFunc Severity.fatalError message).logStderr.isSome = true
          ∧ (statusFunc Severity.fatalError message).exitCode = some 1) := by
  refine ⟨?_, ?_, ?_, fun message => ⟨rfl, rfl⟩⟩
  · intro t
    have hj := hzs.count_eq (HEvent.join t)
    rw [programTrace, List.count_append, List.count_append, hj]
    cases t <;> decide
  · intro h
    have hr := hzs.count_eq (HEvent.release h)
    rw [programTrace, List.count_append, List.count_append, hr]
    cases h <;> decide
  · rw [programTrace, List.getLast?_append, List.getLast?_append]
    rfl

/-- Witness for C7 at the sequential interleaving: the trace ends with process
exit status 0. -/
theorem run_completes_or_fatal_exits_witness :
    (programTrace (mainConcurrentEvents ++ initializeWorldEvents)).getLast?
        = some (HEvent.exitProc 0) :=
  (run_completes_or_fatal_exits (mainConcurrentEvents ++ initializeWorldEvents)
      (merge_append _ _)).2.2.1

/-- C8: the frame is configured as a 1024 by 1024 `ANARI_UFIXED8_RGBA_SRGB`
(4 bytes per pixel) framebuffer, and every image `render` writes has width 1024,
height 1024, 4 components, a 4 * 1024 byte row stride, and vertical flipping
enabled. -/
theorem render_image_format :
    initializeFrame.size = (1024, 1024)
      ∧ initializeFrame.channelColor = ColorFormat.ufixed8RGBASRGB
      ∧ ∀ fileName w, render initializeFrame fileName = some w →
          w.width = 1024 ∧ w.height = 1024 ∧ w.comp = 4
            ∧ w.strideBytes = 4 * 1024 ∧ w.flippedVertically = true := by
  refine ⟨rfl, rfl, fun fileName w h => ?_⟩
  by_cases hf : fileName = ""
  · simp [render, hf] at h
  · rw [render, if_neg hf, Option.some_inj] at h
    rw [← h]
    exact ⟨rfl, rfl, rfl, rfl, rfl⟩

/-- Witness for C8 at the first output file: `render` writes `out_0.png` as a
1024 by 1024, 4-component, vertically flipped image. -/
theorem render_image_format_witness :
    outPng0.width = 1024 ∧ outPng0.height = 1024 ∧ outPng0.comp = 4
      ∧ outPng0.strideBytes = 4 * 1024 ∧ outPng0.flippedVertically = true :=
  render_image_format.2.2 "out_0.png" outPng0 rfl

/-- C9: `initializeWorld`'s data generation is deterministic: the generator is
seeded with the constant 0 and the body reads no ambient per-run state, so for
a fixed translation `pos` (and a fixed standard-library implementation `g`) two
runs produce identical sphere positions, identical distance values, and the
identical index permutation. -/
theorem initializeWorldArrays_deterministic {σ α : Type} (g : WorldGen σ α)
    (pos : α × α × α) (env1 env2 : Nat) :
    initializeWorldArrays g pos env1 = initializeWorldArrays g pos env2 :=
  rfl

/-- C10: after the iota fill and the shuffle, the `primitive.index` array is a
permutation of `0 .. numSpheres - 1`: whatever the generator draws, it contains
each of `0 .. 9999` exactly once. -/
theorem initializeWorldArrays_indices_perm {σ α : Type} (g : WorldGen σ α)
    (pos : α × α × α) (env : Nat) :
    ((initializeWorldArrays g pos env).indices).Perm (List.range numSpheres)
      ∧ ∀ k : Fin numSpheres,
          ((initializeWorldArrays g pos env).indices).count k.val = 1 := by
  have hperm : ((initializeWorldArrays g pos env).indices).Perm (List.range numSpheres) := by
    simp only [initializeWorldArrays]
    exact shuffleModel_perm _ _
  refine ⟨hperm, fun k => ?_⟩
  rw [hperm.count_eq]
  exact List.count_eq_one_of_mem (List.nodup_range numSpheres)
    (List.mem_range.mpr k.isLt)

end AnariMT
